import Mathlib

/-
  Shallow embedding of the mcpgate bridge (src/index.js), the MCP SDK client
  bridge that forwards line-delimited JSON-RPC between stdin/stdout and an
  SSE + HTTP POST transport.  Machine state, the message queue, the error
  classifier and the reconnection supervisor are modelled as pure functions;
  transport sends are an oracle `Sender` returning either success or the
  thrown error message.  JSON frames are modelled by the fields the bridge
  actually inspects (`id`, `method`, `result` presence, `error`, `params`).
-/

namespace MCPGate

/-- A JSON-RPC id as the bridge sees it: a number, a string, or JSON null.
An absent id is `Option.none` at the use sites. -/
inductive JsonId where
  | num (n : Int)
  | str (s : String)
  | null
  deriving DecidableEq, Repr

/-- JavaScript truthiness of a possibly-absent id value (`if (thisRequestId)`
in the source): `0`, `""`, `null` and `undefined` are falsy. -/
def truthy : Option JsonId → Bool
  | none => false
  | some (.num n) => n != 0
  | some (.str s) => s != ""
  | some .null => false

/-- The `params` object of a frame, restricted to the keys the bridge reads
or writes: `requestId` and `reason` (cancellation notifications), `id`
(the bridge's own cancelled derivative), and the handshake payload keys. -/
structure Params where
  requestId : Option JsonId := none
  reason : Option String := none
  id : Option JsonId := none
  protocolVersion : Option String := none
  capabilitiesEmpty : Bool := false
  clientName : Option String := none
  clientVersion : Option String := none
  deriving DecidableEq, Repr

/-- A JSON-RPC `error` object: the keys the bridge reads (`code`, `message`)
plus a count of unmodelled keys so that `Object.keys(error).length === 0`
is expressible. -/
structure ErrObj where
  code : Option Int := none
  message : Option String := none
  otherKeys : Nat := 0
  deriving DecidableEq, Repr

/-- Emptiness test used by the readiness fallback:
`Object.keys(jsonData.error || \x7b\x7d).length === 0`. -/
def ErrObj.isEmpty (e : ErrObj) : Bool :=
  e.code.isNone && e.message.isNone && e.otherKeys == 0

/-- A JSON-RPC frame, restricted to the fields the bridge inspects.
`none` means the key is absent.  `hasResult` records presence of `result`. -/
structure Frame where
  jsonrpc : Option String := none
  id : Option JsonId := none
  method : Option String := none
  hasResult : Bool := false
  error : Option ErrObj := none
  params : Option Params := none
  deriving DecidableEq, Repr

/-- Character-list prefix test, the base of the substring test. -/
def charsLeadWith : List Char → List Char → Bool
  | [], _ => true
  | _ :: _, [] => false
  | a :: as, b :: bs => a == b && charsLeadWith as bs

/-- Character-list substring containment. -/
def charsContain (pat : List Char) : List Char → Bool
  | [] => charsLeadWith pat []
  | s :: rest => charsLeadWith pat (s :: rest) || charsContain pat rest

/-- JavaScript `String.prototype.includes`: substring containment. -/
def jsIncludes (s pat : String) : Bool :=
  charsContain pat.toList s.toList

/-- JSON-RPC / MCP SDK error codes (`ErrorCode` from the SDK's types). -/
def ErrorCode.ConnectionClosed : Int := -32000
/-- SDK error code `RequestTimeout`. -/
def ErrorCode.RequestTimeout : Int := -32001
/-- SDK error code `ParseError`. -/
def ErrorCode.ParseError : Int := -32700
/-- SDK error code `InvalidRequest`. -/
def ErrorCode.InvalidRequest : Int := -32600
/-- SDK error code `MethodNotFound`. -/
def ErrorCode.MethodNotFound : Int := -32601
/-- SDK error code `InternalError`. -/
def ErrorCode.InternalError : Int := -32603

/-- `getErrorCodeForMessage` from src/index.js: maps an error message string
to the JSON-RPC error code the bridge emits. -/
def getErrorCodeForMessage (message : String) : Int :=
  if jsIncludes message "Could not find session" ||
     jsIncludes message "Session expired" ||
     jsIncludes message "Invalid session" then
    ErrorCode.MethodNotFound
  else if jsIncludes message "timed out" || jsIncludes message "timeout" then
    ErrorCode.RequestTimeout
  else if jsIncludes message "connection" || jsIncludes message "Connection lost" ||
     jsIncludes message "fetch failed" || jsIncludes message "ECONNREFUSED" then
    ErrorCode.ConnectionClosed
  else if jsIncludes message "parse" || jsIncludes message "Invalid JSON" then
    ErrorCode.ParseError
  else if jsIncludes message "invalid request" || jsIncludes message "Invalid request" then
    ErrorCode.InvalidRequest
  else
    ErrorCode.InternalError

/-- `isFatalConnectionError` from src/index.js: error messages that require a
full reconnection. -/
def isFatalConnectionError (message : String) : Bool :=
  jsIncludes message "Could not find session" ||
  jsIncludes message "404" ||
  jsIncludes message "Connection lost" ||
  jsIncludes message "fetch failed" ||
  jsIncludes message "network error" ||
  jsIncludes message "Not connected" ||
  jsIncludes message "Request timed out" ||
  jsIncludes message "Received request before initialization was complete"

/-- The first argument of `writeErrorMessage`: either a string or a thrown
object carrying a possibly-absent `.message`. -/
inductive ErrInput where
  | str (s : String)
  | obj (message : Option String)
  deriving DecidableEq, Repr

/-- The message-formatting step of `writeErrorMessage`: a string is used as
is; otherwise `.message` is used when truthy, else `"Unknown error"`. -/
def formatErrMessage : ErrInput → String
  | .str s => s
  | .obj (some m) => if m = "" then "Unknown error" else m
  | .obj none => "Unknown error"

/-- `writeErrorMessage` from src/index.js, as the frame it writes to stdout.
`code = none` and `id = none` model the `undefined` defaults; `now` is
`Date.now()` in milliseconds. -/
def writeErrorMessage (message : ErrInput) (code : Option Int)
    (id : Option JsonId) (now : Nat) : Frame :=
  let myMessage := formatErrMessage message
  let myCode := match code with
    | some c => c
    | none => getErrorCodeForMessage myMessage
  let responseId : JsonId := match id with
    | some .null => .str ("error-" ++ toString now)
    | some v => v
    | none => .str ("error-" ++ toString now)
  { jsonrpc := some "2.0", id := some responseId,
    error := some { code := some myCode, message := some myMessage } }

/-- The standard handshake message constant of src/index.js. -/
def handshakeMessage : Frame :=
  { jsonrpc := some "2.0", id := some (.num 0), method := some "initialize",
    params := some { protocolVersion := some "2024-11-05",
                     capabilitiesEmpty := true,
                     clientName := some "claude-ai",
                     clientVersion := some "0.1.0" } }

/-- The predicate `ensureHandshakeInQueue` searches with:
`msg.method === "initialize" && msg.id === 0`. -/
def isHandshakeFrame (m : Frame) : Bool :=
  m.method == some "initialize" && m.id == some (.num 0)

/-- `ensureHandshakeInQueue` from src/index.js, as a function of the message
queue: move an existing handshake frame to the front, or insert a copy of
`handshakeMessage` at the front. -/
def ensureHandshakeInQueue (q : List Frame) : List Frame :=
  match q.findIdx? isHandshakeFrame with
  | none => handshakeMessage :: q
  | some i =>
    if i = 0 then q
    else
      match q[i]? with
      | some m => m :: q.eraseIdx i
      | none => q

/-- Config constant `reconnectDelay` (ms), the base backoff delay. -/
def reconnectDelay : ℚ := 1000
/-- Config constant `maxReconnectAttempts`. -/
def maxReconnectAttempts : Nat := 5
/-- Config constant `recoveryInterval` (ms). -/
def recoveryInterval : Nat := 30000

/-- The mutable bridge state of src/index.js (the fields of `state` plus the
mutable `config.sessionId`).  `reconnectTimer` holds the delay of the single
pending reconnection timer, if any. -/
structure BridgeState where
  messageQueue : List Frame := []
  transportReady : Bool := false
  reconnecting : Bool := false
  reconnectAttempts : Nat := 0
  consecutiveTimeouts : Nat := 0
  lastReconnectAttempt : Nat := 0
  reconnectTimer : Option ℚ := none
  sessionId : Option String := none
  originalSessionId : Option String := none
  deriving DecidableEq, Repr

/-- Observable effects of a step: a frame written to stdout, a frame
successfully sent on the transport, or a reconnection timer being created
with the given delay. -/
inductive Event where
  | stdout (f : Frame)
  | sent (f : Frame)
  | scheduleReconnect (delay : ℚ)
  deriving DecidableEq, Repr

/-- Test for the timer-creation event. -/
def Event.isSchedule : Event → Bool
  | .scheduleReconnect _ => true
  | _ => false

/-- Test for a stdout write of a `notifications/cancelled` frame. -/
def Event.isCancelOut : Event → Bool
  | .stdout f => f.method == some "notifications/cancelled"
  | _ => false

/-- A transport-send oracle: `none` means `transport.send` resolved,
`some msg` means it threw an error with message `msg`. -/
def Sender : Type := Frame → Option String

/-- The sender that always succeeds. -/
def sendOk : Sender := fun _ => none

/-- `startReconnection` from src/index.js: no-op while a reconnection is in
flight; otherwise clear any pending timer, possibly reset the attempt
counter after `recoveryInterval` of quiet, bump the counter, and schedule
one timer with exponential backoff capped at 10 000 ms.  `now` is
`Date.now()`. -/
def startReconnection (s : BridgeState) (now : Nat) : BridgeState × List Event :=
  if s.reconnecting then (s, [])
  else
    let attempts0 :=
      if recoveryInterval < now - s.lastReconnectAttempt then 0
      else s.reconnectAttempts
    let attempts := attempts0 + 1
    let delay : ℚ := min (reconnectDelay * (3 / 2 : ℚ) ^ (attempts - 1)) 10000
    ({ s with reconnectTimer := some delay,
              reconnectAttempts := attempts,
              lastReconnectAttempt := now,
              reconnecting := true },
     [Event.scheduleReconnect delay])

/-- The loop body of `processQueue` from src/index.js, recursing on the
queued frames: send each in FIFO order; on a thrown error put the frame
back at the front, clear readiness, and (when the error is fatal) trigger
reconnection, then stop. -/
def processQueueAux (send : Sender) (now : Nat) :
    List Frame → BridgeState → BridgeState × List Event
  | [], s => (s, [])
  | m :: rest, s =>
    match send m with
    | none =>
      ((processQueueAux send now rest s).1,
       Event.sent m :: (processQueueAux send now rest s).2)
    | some errMsg =>
      if isFatalConnectionError errMsg then
        let s1 := { s with messageQueue := m :: rest, transportReady := false }
        startReconnection s1 now
      else
        ({ s with messageQueue := m :: rest, transportReady := false }, [])

/-- `processQueue` from src/index.js. -/
def processQueue (send : Sender) (s : BridgeState) (now : Nat) :
    BridgeState × List Event :=
  processQueueAux send now s.messageQueue { s with messageQueue := [] }

/-- `handleRequestMessage` from src/index.js: when the transport is not
ready, queue frames whose tracked id is truthy (and possibly re-arm a
reconnection after `recoveryInterval` of quiet) and skip the rest; when
ready, send, and on a thrown error clear readiness, push the frame back
(truthy id only) and reconnect only when the error is fatal. -/
def handleRequestMessage (send : Sender) (s : BridgeState) (message : Frame)
    (thisRequestId : Option JsonId) (now : Nat) : BridgeState × List Event :=
  if !s.transportReady then
    if truthy thisRequestId then
      let s1 := { s with messageQueue := s.messageQueue ++ [message] }
      if recoveryInterval < now - s1.lastReconnectAttempt && !s1.reconnecting then
        startReconnection s1 now
      else (s1, [])
    else (s, [])
  else
    match send message with
    | none => (s, [Event.sent message])
    | some errMsg =>
      let q' := if truthy thisRequestId
                then s.messageQueue ++ [message] else s.messageQueue
      if isFatalConnectionError errMsg then
        startReconnection { s with transportReady := false, messageQueue := q' } now
      else
        ({ s with transportReady := false, messageQueue := q' }, [])

/-- Readiness-fallback test of `handleResponseMessage`:
`!jsonData.error || Object.keys(jsonData.error || \x7b\x7d).length === 0`. -/
def errIsAbsentOrEmpty (f : Frame) : Bool :=
  match f.error with
  | none => true
  | some e => e.isEmpty

/-- The session-error test of `handleResponseMessage`:
`jsonData.error.message && (message.includes(...) || ...)`. -/
def sessionErrTrigger (e : ErrObj) : Bool :=
  match e.message with
  | some m =>
    m != "" &&
    (jsIncludes m "Could not find session" ||
     jsIncludes m "Session expired" ||
     jsIncludes m "Invalid session" ||
     jsIncludes m "Received request before initialization was complete")
  | none => false

/-- The `jsonData.error.message || 'Unknown error'` fallback. -/
def errReason (e : ErrObj) : String :=
  match e.message with
  | some m => if m = "" then "Unknown error" else m
  | none => "Unknown error"

/-- The `notifications/cancelled` derivative frame `handleResponseMessage`
writes for non-session error responses. -/
def cancelDerivative (origId : Option JsonId) (reason : String) : Frame :=
  { jsonrpc := some "2.0", method := some "notifications/cancelled",
    params := some { id := origId, reason := some reason } }

/-- The readiness-fallback block at the top of `handleResponseMessage`:
on a non-error frame while not ready, mark ready, drain the queue, and
zero the consecutive-timeout counter. -/
def readyStep (send : Sender) (s : BridgeState) (j : Frame) (now : Nat) :
    BridgeState × List Event :=
  if !s.transportReady && errIsAbsentOrEmpty j then
    ({ (processQueue send { s with transportReady := true } now).1 with
        consecutiveTimeouts := 0 },
     (processQueue send { s with transportReady := true } now).2)
  else (s, [])

/-- `handleResponseMessage` from src/index.js: mark ready (and drain the
queue, zero the timeout counter) on a non-error frame when not ready;
forward the frame to stdout; zero the timeout counter on responses with a
`result`; on error responses either reconnect (session errors) or write a
`notifications/cancelled` derivative. -/
def handleResponseMessage (send : Sender) (s : BridgeState) (j : Frame)
    (now : Nat) : BridgeState × List Event :=
  let s1 := (readyStep send s j now).1
  let out1 := (readyStep send s j now).2 ++ [Event.stdout j]
  if j.id.isSome && j.hasResult then
    ({ s1 with consecutiveTimeouts := 0 }, out1)
  else if j.id.isSome && j.error.isSome then
    match j.error with
    | some e =>
      if sessionErrTrigger e then
        ((startReconnection { s1 with transportReady := false } now).1,
         out1 ++ (startReconnection { s1 with transportReady := false } now).2)
      else
        (s1, out1 ++ [Event.stdout (cancelDerivative j.id ("Error: " ++ errReason e))])
    | none => (s1, out1)
  else
    (s1, out1)

/-- `handleStdinMessage` from src/index.js, on an already-parsed frame:
frames with a present id are tracked and handed to `handleRequestMessage`;
`notifications/cancelled` notifications bump the consecutive-timeout counter
(reconnecting at 3) and drop queued frames with the cancelled id; all frames
then flow to `handleRequestMessage` (a cancellation without `params` throws
before that call and is swallowed by the catch). -/
def handleStdinMessage (send : Sender) (s : BridgeState) (message : Frame)
    (now : Nat) : BridgeState × List Event :=
  if message.id.isSome then
    handleRequestMessage send s message message.id now
  else if message.method == some "notifications/cancelled" then
    match message.params with
    | none => (s, [])
    | some p =>
      let isTimeoutReason := match p.reason with
        | some r => jsIncludes r "Request timed out"
        | none => false
      let step1 : BridgeState × List Event :=
        if isTimeoutReason then
          if 3 ≤ s.consecutiveTimeouts + 1 && !s.reconnecting then
            ({ (startReconnection
                  { s with consecutiveTimeouts := s.consecutiveTimeouts + 1,
                           transportReady := false } now).1 with
                consecutiveTimeouts := 0 },
             (startReconnection
                  { s with consecutiveTimeouts := s.consecutiveTimeouts + 1,
                           transportReady := false } now).2)
          else ({ s with consecutiveTimeouts := s.consecutiveTimeouts + 1 }, [])
        else (s, [])
      let s2 := { step1.1 with
                  messageQueue := step1.1.messageQueue.filter
                    (fun m => m.id != p.requestId) }
      ((handleRequestMessage send s2 message none now).1,
       step1.2 ++ (handleRequestMessage send s2 message none now).2)
  else
    handleRequestMessage send s message none now

/-- The session-id decision of `createConnection` (src/index.js lines
197-213): reconnect attempts 1 and 2 reuse `originalSessionId`, later
attempts use a fresh random id; the initial connection freezes
`originalSessionId`. -/
def decideSession (isReconnect : Bool) (s : BridgeState) (freshId : String) :
    BridgeState :=
  if isReconnect then
    if s.reconnectAttempts ≤ 2 then { s with sessionId := s.originalSessionId }
    else { s with sessionId := some freshId }
  else { s with originalSessionId := s.sessionId }

/-- Outcome of the preparatory part of `createConnection`: either recovery
mode was entered (too many attempts) or the connection proceeds with the
decided session id. -/
inductive PrepResult where
  | recovery (s : BridgeState)
  | proceed (s : BridgeState)
  deriving DecidableEq, Repr

/-- The preparatory part of `createConnection` (src/index.js lines 184-219):
enter recovery mode when `reconnectAttempts >= maxReconnectAttempts` on a
reconnect, otherwise decide the session id. -/
def createConnectionPrep (isReconnect : Bool) (s : BridgeState)
    (freshId : String) : PrepResult :=
  if isReconnect && maxReconnectAttempts ≤ s.reconnectAttempts then
    .recovery { s with reconnecting := false }
  else
    .proceed (decideSession isReconnect s freshId)

/-- The successful-connect epilogue of `createConnection` (lines 295-296):
reset the attempt counter and the reconnecting flag, nothing else. -/
def connectSuccessReset (s : BridgeState) : BridgeState :=
  { s with reconnectAttempts := 0, reconnecting := false }

/-- Fold a list of stdin lines (already parsed) through
`handleStdinMessage`, accumulating events. -/
def runStdin (send : Sender) (s : BridgeState) (fs : List Frame) (now : Nat) :
    BridgeState × List Event :=
  fs.foldl
    (fun acc f =>
      ((handleStdinMessage send acc.1 f now).1,
       acc.2 ++ (handleStdinMessage send acc.1 f now).2))
    (s, [])

/-- A stdin `notifications/cancelled` frame whose reason is a request
timeout, as produced by the local client. -/
def timeoutCancel (k : Int) : Frame :=
  { jsonrpc := some "2.0", method := some "notifications/cancelled",
    params := some { requestId := some (.num k),
                     reason := some "Request timed out" } }

/-- The sender that always throws the non-fatal error message "boom". -/
def sendBoom : Sender := fun _ => some "boom"

/-- A plain request frame used in concrete scenarios. -/
def pingFrame : Frame :=
  { jsonrpc := some "2.0", id := some (.num 5), method := some "ping" }

/-- A second request frame used in concrete scenarios. -/
def listFrame : Frame :=
  { jsonrpc := some "2.0", id := some (.num 6), method := some "tools/list" }

/-- A server error response whose message is a session-lost trigger. -/
def sessionLostFrame : Frame :=
  { jsonrpc := some "2.0", id := some (.num 7),
    error := some { code := some (-32601),
                    message := some "Could not find session" } }

/-- A server error response with a generic, non-session error message. -/
def boomFrame : Frame :=
  { jsonrpc := some "2.0", id := some (.num 7),
    error := some { code := some (-32000), message := some "boom" } }

/-- The SessionLost trigger family of the error-code classifier, as the
amended claim words it (mirrors the first branch of
`getErrorCodeForMessage`). -/
def specSessionLostTrigger (m : String) : Bool :=
  jsIncludes m "Could not find session" || jsIncludes m "Session expired" ||
  jsIncludes m "Invalid session"

/-- The Timeout trigger family of the error-code classifier. -/
def specTimeoutTrigger (m : String) : Bool :=
  jsIncludes m "timed out" || jsIncludes m "timeout"

/-- The ConnectionLost trigger family the code actually tests:
"connection", "Connection lost", "fetch failed", "ECONNREFUSED" — and not
"Not connected". -/
def specConnectionTrigger (m : String) : Bool :=
  jsIncludes m "connection" || jsIncludes m "Connection lost" ||
  jsIncludes m "fetch failed" || jsIncludes m "ECONNREFUSED"

/-- The Parse trigger family of the error-code classifier. -/
def specParseTrigger (m : String) : Bool :=
  jsIncludes m "parse" || jsIncludes m "Invalid JSON"

/-- The InvalidRequest trigger family of the error-code classifier. -/
def specInvalidReqTrigger (m : String) : Bool :=
  jsIncludes m "invalid request" || jsIncludes m "Invalid request"

/-! ## Helper lemmas -/

/-- A successful `findIdx?` splits the list at the first hit. -/
theorem findIdx?_decomp {α : Type} {p : α → Bool} :
    ∀ {q : List α} {i : Nat}, q.findIdx? p = some i →
      ∃ a m b, q = a ++ m :: b ∧ a.length = i ∧ p m = true ∧ ∀ x ∈ a, p x = false
  | [], i, h => by simp at h
  | x :: q, i, h => by
    rw [List.findIdx?_cons] at h
    cases hx : p x with
    | true =>
      rw [hx, if_pos rfl] at h
      obtain rfl : (0 : Nat) = i := Option.some.inj h
      exact ⟨[], x, q, by simp, by simp, hx, by simp⟩
    | false =>
      rw [hx] at h
      simp only [Bool.false_eq_true, if_false] at h
      rw [List.findIdx?_start_succ, Option.map_eq_some'] at h
      obtain ⟨j, hj, hji⟩ := h
      obtain ⟨a, m, b, rfl, hlen, hm, ha⟩ := findIdx?_decomp hj
      refine ⟨x :: a, m, b, rfl, by simp [hlen]; omega, hm, ?_⟩
      intro y hy
      rcases List.mem_cons.mp hy with rfl | hy
      · exact hx
      · exact ha y hy

/-- Equation for `ensureHandshakeInQueue` when no handshake is queued. -/
theorem ensureHandshakeInQueue_of_none {q : List Frame}
    (h : q.findIdx? isHandshakeFrame = none) :
    ensureHandshakeInQueue q = handshakeMessage :: q := by
  unfold ensureHandshakeInQueue
  rw [h]

/-- Equation for `ensureHandshakeInQueue` when the handshake sits at a
positive index `i` holding frame `m`. -/
theorem ensureHandshakeInQueue_of_pos {q : List Frame} {i : Nat} {m : Frame}
    (h : q.findIdx? isHandshakeFrame = some i) (hi : i ≠ 0)
    (hg : q[i]? = some m) :
    ensureHandshakeInQueue q = m :: q.eraseIdx i := by
  unfold ensureHandshakeInQueue
  rw [h]
  dsimp only
  rw [if_neg hi, hg]

/-- Equation for `ensureHandshakeInQueue` when the handshake is at index 0. -/
theorem ensureHandshakeInQueue_of_zero {q : List Frame}
    (h : q.findIdx? isHandshakeFrame = some 0) :
    ensureHandshakeInQueue q = q := by
  unfold ensureHandshakeInQueue
  rw [h]
  dsimp only
  rw [if_pos rfl]

/-- `startReconnection` never touches the message queue. -/
theorem startReconnection_queue (s : BridgeState) (now : Nat) :
    (startReconnection s now).1.messageQueue = s.messageQueue := by
  unfold startReconnection
  split <;> rfl

/-- `startReconnection` never touches the readiness flag. -/
theorem startReconnection_ready (s : BridgeState) (now : Nat) :
    (startReconnection s now).1.transportReady = s.transportReady := by
  unfold startReconnection
  split <;> rfl

/-- With an always-successful sender, `processQueueAux` sends every queued
frame in order and leaves the state untouched. -/
theorem processQueueAux_sendOk (now : Nat) (l : List Frame) (s : BridgeState) :
    processQueueAux sendOk now l s = (s, l.map Event.sent) := by
  induction l generalizing s with
  | nil => rfl
  | cons m rest ih => simp [processQueueAux, sendOk, ih]

/-- With an always-successful sender, `processQueue` empties the queue and
emits exactly the queued frames, in queue order. -/
theorem processQueue_sendOk (s : BridgeState) (now : Nat) :
    processQueue sendOk s now
      = ({ s with messageQueue := [] }, s.messageQueue.map Event.sent) := by
  unfold processQueue
  rw [processQueueAux_sendOk]

/-- `startReconnection` sets the reconnecting flag when it was clear. -/
theorem startReconnection_sets (t : BridgeState) (n : Nat)
    (h : t.reconnecting = false) :
    (startReconnection t n).1.reconnecting = true := by
  unfold startReconnection
  rw [h]
  simp

/-- `handleRequestMessage` on a frame with no tracked id and an
always-successful sender: the state is unchanged; the frame is sent only
when ready and is dropped otherwise. -/
theorem handleRequestMessage_none_ok (s : BridgeState) (f : Frame) (now : Nat) :
    handleRequestMessage sendOk s f none now
      = (s, if s.transportReady then [Event.sent f] else []) := by
  unfold handleRequestMessage
  cases hr : s.transportReady with
  | false => simp [truthy]
  | true => simp [sendOk]

/-- When no reconnection is in flight, `startReconnection` creates exactly
one timer, sets the reconnecting flag, and keeps the timeout counter. -/
theorem startReconnection_schedule_facts (t : BridgeState) (n : Nat)
    (h : t.reconnecting = false) :
    ((startReconnection t n).2.countP Event.isSchedule = 1) ∧
    (startReconnection t n).1.reconnecting = true ∧
    (startReconnection t n).1.consecutiveTimeouts = t.consecutiveTimeouts := by
  unfold startReconnection
  rw [h]
  simp [Event.isSchedule]

/-! ## C1: handshake promotion -/

/-- C1.  On any queue holding at most one initialize frame (invariant I1),
`ensureHandshakeInQueue` leaves exactly one initialize frame, at index 0,
preserves the relative order of all other frames, and when no initialize
frame was present the one at index 0 is the canonical `handshakeMessage`. -/
theorem ensureHandshakeInQueue_spec (q : List Frame)
    (h : q.countP isHandshakeFrame ≤ 1) :
    (ensureHandshakeInQueue q).countP isHandshakeFrame = 1 ∧
    (∃ m, (ensureHandshakeInQueue q).head? = some m ∧ isHandshakeFrame m = true) ∧
    (ensureHandshakeInQueue q).filter (fun f => !isHandshakeFrame f)
      = q.filter (fun f => !isHandshakeFrame f) ∧
    (q.countP isHandshakeFrame = 0 →
      ensureHandshakeInQueue q = handshakeMessage :: q) := by
  cases hf : q.findIdx? isHandshakeFrame with
  | none =>
    have hall : ∀ x ∈ q, isHandshakeFrame x = false := List.findIdx?_eq_none_iff.mp hf
    have hc0 : q.countP isHandshakeFrame = 0 :=
      List.countP_eq_zero.mpr (fun a ha => by simp [hall a ha])
    have hfil : q.filter (fun f => !isHandshakeFrame f) = q :=
      List.filter_eq_self.mpr (fun a ha => by simp [hall a ha])
    rw [ensureHandshakeInQueue_of_none hf]
    refine ⟨?_, ⟨handshakeMessage, rfl, by decide⟩, ?_, fun _ => rfl⟩
    · rw [List.countP_cons, hc0]
      decide
    · rw [List.filter_cons]
      have hhs : (!isHandshakeFrame handshakeMessage) = false := by decide
      rw [hhs, hfil]
      simp
  | some i =>
    obtain ⟨a, m, b, rfl, hlen, hm, ha⟩ := findIdx?_decomp hf
    have hca : a.countP isHandshakeFrame = 0 :=
      List.countP_eq_zero.mpr (fun x hx => by simp [ha x hx])
    have hcm : (m :: b).countP isHandshakeFrame
        = b.countP isHandshakeFrame + 1 := by
      rw [List.countP_cons, hm]
      simp
    have hcq : (a ++ m :: b).countP isHandshakeFrame
        = 1 + b.countP isHandshakeFrame := by
      rw [List.countP_append isHandshakeFrame, hca, hcm]
      omega
    have hcb : b.countP isHandshakeFrame = 0 := by
      rw [hcq] at h
      omega
    have hfa : a.filter (fun f => !isHandshakeFrame f) = a :=
      List.filter_eq_self.mpr (fun x hx => by simp [ha x hx])
    have hfb : b.filter (fun f => !isHandshakeFrame f) = b :=
      List.filter_eq_self.mpr (fun x hx => by
        simp [List.countP_eq_zero.mp hcb x hx])
    have hmf : (!isHandshakeFrame m) = false := by simp [hm]
    have hq1 : ¬ (a ++ m :: b).countP isHandshakeFrame = 0 := by
      rw [hcq]
      omega
    by_cases hi : i = 0
    · subst hi
      have ha0 : a = [] := List.length_eq_zero.mp hlen
      subst ha0
      rw [ensureHandshakeInQueue_of_zero hf]
      refine ⟨?_, ⟨m, rfl, hm⟩, rfl, fun hc => absurd hc hq1⟩
      rw [hcq, hcb]
    · have hget : (a ++ m :: b)[i]? = some m := by
        rw [← hlen, List.getElem?_append_right (Nat.le_refl a.length)]
        simp
      have herase : (a ++ m :: b).eraseIdx i = a ++ b := by
        rw [← hlen, List.eraseIdx_append_of_length_le (Nat.le_refl a.length) (m :: b)]
        simp
      rw [ensureHandshakeInQueue_of_pos hf hi hget, herase]
      refine ⟨?_, ⟨m, rfl, hm⟩, ?_, fun hc => absurd hc hq1⟩
      · rw [List.countP_cons, hm, List.countP_append isHandshakeFrame, hca, hcb]
        simp
      · rw [List.filter_cons, hmf]
        rw [List.filter_append, List.filter_append, hfa, hfb,
            List.filter_cons, hmf, hfb]
        simp

/-- Witness for C1 at a concrete queue holding the handshake at index 1. -/
theorem ensureHandshakeInQueue_spec_witness :
    ([{ id := some (.num 5), method := some "ping" }, handshakeMessage]
        : List Frame).countP isHandshakeFrame ≤ 1 ∧
    (ensureHandshakeInQueue
        [{ id := some (.num 5), method := some "ping" }, handshakeMessage]).countP
        isHandshakeFrame = 1 ∧
    (∃ m, (ensureHandshakeInQueue
        [{ id := some (.num 5), method := some "ping" }, handshakeMessage]).head?
        = some m ∧ isHandshakeFrame m = true) ∧
    (ensureHandshakeInQueue
        [{ id := some (.num 5), method := some "ping" }, handshakeMessage]).filter
        (fun f => !isHandshakeFrame f)
      = ([{ id := some (.num 5), method := some "ping" }, handshakeMessage]
          : List Frame).filter (fun f => !isHandshakeFrame f) ∧
    (([{ id := some (.num 5), method := some "ping" }, handshakeMessage]
        : List Frame).countP isHandshakeFrame = 0 →
      ensureHandshakeInQueue
          [{ id := some (.num 5), method := some "ping" }, handshakeMessage]
        = handshakeMessage
            :: [{ id := some (.num 5), method := some "ping" }, handshakeMessage]) :=
  ⟨by decide,
   ensureHandshakeInQueue_spec
     [{ id := some (.num 5), method := some "ping" }, handshakeMessage] (by decide)⟩

/-! ## C2: queueing of stdin frames while not READY -/

/-- C2 counterexample.  A frame carrying the id 0 read from stdin while the
bridge is not READY is neither queued nor sent — it is lost — because the
source tests the tracked id for JavaScript truthiness and `0` is falsy
(`if (thisRequestId)` in `handleRequestMessage`). -/
theorem queue_loses_id_zero_frame :
    (handleStdinMessage sendOk
        { transportReady := false, lastReconnectAttempt := 100000 }
        { jsonrpc := some "2.0", id := some (.num 0), method := some "ping" }
        100500).1.messageQueue = [] ∧
    (handleStdinMessage sendOk
        { transportReady := false, lastReconnectAttempt := 100000 }
        { jsonrpc := some "2.0", id := some (.num 0), method := some "ping" }
        100500).2 = [] := by
  decide

/-- C2 amended.  A frame with a truthy id (a nonzero number or a nonempty
string) read while not READY is appended to the queue, and an
always-successful drain delivers the whole queue in order, losing nothing. -/
theorem truthy_id_frames_queued_and_drained (s : BridgeState) (f : Frame)
    (now : Nat) (hnr : s.transportReady = false) (hid : truthy f.id = true) :
    (handleStdinMessage sendOk s f now).1.messageQueue
      = s.messageQueue ++ [f] ∧
    ∀ t : BridgeState, processQueue sendOk t now
      = ({ t with messageQueue := [] }, t.messageQueue.map Event.sent) := by
  refine ⟨?_, fun t => processQueue_sendOk t now⟩
  have hsome : f.id.isSome = true := by
    cases hf : f.id with
    | none => rw [hf] at hid; simp [truthy] at hid
    | some v => rfl
  unfold handleStdinMessage
  rw [hsome]
  simp only [if_true]
  unfold handleRequestMessage
  rw [hnr, hid]
  simp only [Bool.not_false, if_true]
  split
  · rw [startReconnection_queue]
  · rfl

/-- Witness for C2's amended theorem at a concrete not-ready state. -/
theorem truthy_id_frames_queued_and_drained_witness :
    (handleStdinMessage sendOk { transportReady := false } pingFrame
        0).1.messageQueue
      = ({ transportReady := false } : BridgeState).messageQueue ++ [pingFrame] ∧
    ∀ t : BridgeState, processQueue sendOk t 0
      = ({ t with messageQueue := [] }, t.messageQueue.map Event.sent) :=
  truthy_id_frames_queued_and_drained { transportReady := false } pingFrame 0
    rfl (by decide)

/-! ## C3: session-id policy on reconnect -/

/-- C3.  Reconnect attempts 1 and 2 reuse `originalSessionId`; attempts 3
and later (below the recovery cutoff) use the freshly generated id; the
session decision never writes `originalSessionId` on a reconnect; a
successful connect only resets the attempt counter and reconnecting flag. -/
theorem session_id_policy (s : BridgeState) (fresh : String) :
    (s.reconnectAttempts ≤ 2 →
      createConnectionPrep true s fresh
        = .proceed { s with sessionId := s.originalSessionId }) ∧
    (3 ≤ s.reconnectAttempts → s.reconnectAttempts < maxReconnectAttempts →
      createConnectionPrep true s fresh
        = .proceed { s with sessionId := some fresh }) ∧
    (∀ t : BridgeState,
      (decideSession true t fresh).originalSessionId = t.originalSessionId) ∧
    (connectSuccessReset s).originalSessionId = s.originalSessionId ∧
    (connectSuccessReset s).sessionId = s.sessionId ∧
    (connectSuccessReset s).reconnectAttempts = 0 ∧
    (connectSuccessReset s).reconnecting = false := by
  refine ⟨?_, ?_, ?_, rfl, rfl, rfl, rfl⟩
  · intro h2
    have hmax : ¬ (maxReconnectAttempts ≤ s.reconnectAttempts) := by
      unfold maxReconnectAttempts
      omega
    simp [createConnectionPrep, decideSession, hmax, h2]
  · intro h3 h5
    have hmax : ¬ (maxReconnectAttempts ≤ s.reconnectAttempts) := by omega
    have h2 : ¬ (s.reconnectAttempts ≤ 2) := by omega
    simp [createConnectionPrep, decideSession, hmax, h2]
  · intro t
    unfold decideSession
    rw [if_pos rfl]
    split <;> rfl

/-- Witness for C3 at attempt counters 2 and 3. -/
theorem session_id_policy_witness :
    createConnectionPrep true
        { reconnectAttempts := 2, sessionId := some "sid0",
          originalSessionId := some "sid0" } "fresh"
      = .proceed { reconnectAttempts := 2, sessionId := some "sid0",
                   originalSessionId := some "sid0" } ∧
    createConnectionPrep true
        { reconnectAttempts := 3, sessionId := some "sid0",
          originalSessionId := some "sid0" } "fresh"
      = .proceed { reconnectAttempts := 3, sessionId := some "fresh",
                   originalSessionId := some "sid0" } :=
  ⟨(session_id_policy
      { reconnectAttempts := 2, sessionId := some "sid0",
        originalSessionId := some "sid0" } "fresh").1 (by decide),
   (session_id_policy
      { reconnectAttempts := 3, sessionId := some "sid0",
        originalSessionId := some "sid0" } "fresh").2.1 (by decide) (by decide)⟩

/-! ## C4: routing of upstream error responses -/

/-- C4 counterexample.  On a session-lost error response the bridge writes
the frame and reconnects but writes no `notifications/cancelled`
derivative: the derivative is only written on the non-session branch. -/
theorem session_error_no_cancel_derivative :
    ((handleResponseMessage sendOk
        { transportReady := true, lastReconnectAttempt := 100000 }
        sessionLostFrame 100500).2.countP Event.isCancelOut = 0) ∧
    (handleResponseMessage sendOk
        { transportReady := true, lastReconnectAttempt := 100000 }
        sessionLostFrame 100500).1.transportReady = false ∧
    (handleResponseMessage sendOk
        { transportReady := true, lastReconnectAttempt := 100000 }
        sessionLostFrame 100500).1.reconnecting = true ∧
    (handleResponseMessage sendOk
        { transportReady := true, lastReconnectAttempt := 100000 }
        sessionLostFrame 100500).2.head?
      = some (Event.stdout sessionLostFrame) := by
  decide

/-- C4 amended.  For an error response whose message matches a SessionLost
substring the bridge writes the frame, clears readiness and reconnects,
with no cancelled derivative; for any other error response it writes the
frame plus the `notifications/cancelled` derivative and leaves the state
untouched (no reconnect). -/
theorem error_response_routing (send : Sender) (s : BridgeState) (f : Frame)
    (e : ErrObj) (now : Nat)
    (hid : f.id.isSome = true) (hres : f.hasResult = false)
    (herr : f.error = some e) (hne : e.isEmpty = false) :
    (sessionErrTrigger e = true →
      (handleResponseMessage send s f now).2
        = Event.stdout f
            :: (startReconnection { s with transportReady := false } now).2 ∧
      (handleResponseMessage send s f now).1.transportReady = false ∧
      (s.reconnecting = false →
        (handleResponseMessage send s f now).1.reconnecting = true)) ∧
    (sessionErrTrigger e = false →
      (handleResponseMessage send s f now).2
        = [Event.stdout f,
           Event.stdout (cancelDerivative f.id ("Error: " ++ errReason e))] ∧
      (handleResponseMessage send s f now).1 = s) := by
  have hz : errIsAbsentOrEmpty f = false := by
    unfold errIsAbsentOrEmpty
    rw [herr]
    exact hne
  have hrs : readyStep send s f now = (s, []) := by
    unfold readyStep
    rw [hz]
    simp
  have hcond : (f.id.isSome && f.hasResult) = false := by
    rw [hid, hres]
    rfl
  have hcond2 : (f.id.isSome && f.error.isSome) = true := by
    rw [hid, herr]
    rfl
  constructor
  · intro hses
    have hmain : handleResponseMessage send s f now
        = ((startReconnection { s with transportReady := false } now).1,
           Event.stdout f
             :: (startReconnection { s with transportReady := false } now).2) := by
      unfold handleResponseMessage
      rw [hrs]
      dsimp only
      rw [hcond, hcond2, herr]
      simp [hses]
    rw [hmain]
    refine ⟨rfl, ?_, ?_⟩
    · rw [startReconnection_ready]
    · intro hr
      exact startReconnection_sets _ _ hr
  · intro hses
    have hmain : handleResponseMessage send s f now
        = (s, [Event.stdout f,
               Event.stdout (cancelDerivative f.id ("Error: " ++ errReason e))]) := by
      unfold handleResponseMessage
      rw [hrs]
      dsimp only
      rw [hcond, hcond2, herr]
      simp [hses]
    rw [hmain]
    exact ⟨rfl, rfl⟩

/-- Witness for C4's amended theorem, on the non-session "boom" error. -/
theorem error_response_routing_witness :
    (handleResponseMessage sendOk ({ transportReady := true } : BridgeState)
        boomFrame 0).2
      = [Event.stdout boomFrame,
         Event.stdout (cancelDerivative boomFrame.id ("Error: " ++ errReason
           { code := some (-32000), message := some "boom" }))] ∧
    (handleResponseMessage sendOk ({ transportReady := true } : BridgeState)
        boomFrame 0).1 = { transportReady := true } :=
  (error_response_routing sendOk { transportReady := true } boomFrame
      { code := some (-32000), message := some "boom" } 0
      rfl rfl rfl rfl).2 (by decide)

/-! ## C5: transient sender failures -/

/-- C5 counterexample.  A non-fatal ("boom") send failure on the ready
transport appends the frame to the back of the queue (not the front) and
does not trigger any reconnection: no timer, flag stays clear, no events. -/
theorem transient_send_requeues_at_back :
    (handleRequestMessage sendBoom
        { transportReady := true, messageQueue := [pingFrame],
          lastReconnectAttempt := 100000 }
        listFrame (some (.num 6)) 100500).1.messageQueue
      = [pingFrame, listFrame] ∧
    (handleRequestMessage sendBoom
        { transportReady := true, messageQueue := [pingFrame],
          lastReconnectAttempt := 100000 }
        listFrame (some (.num 6)) 100500).1.reconnecting = false ∧
    (handleRequestMessage sendBoom
        { transportReady := true, messageQueue := [pingFrame],
          lastReconnectAttempt := 100000 }
        listFrame (some (.num 6)) 100500).1.reconnectTimer = none ∧
    (handleRequestMessage sendBoom
        { transportReady := true, messageQueue := [pingFrame],
          lastReconnectAttempt := 100000 }
        listFrame (some (.num 6)) 100500).2 = [] := by
  decide

/-- C5 amended.  A non-fatal send failure clears readiness, triggers no
reconnection, and produces no events; the frame is appended to the back of
the queue when its tracked id is truthy, and is dropped (not requeued)
when the id is falsy (0, the empty string, null, or absent). -/
theorem transient_send_failure_behavior (send : Sender) (s : BridgeState)
    (f : Frame) (rid : Option JsonId) (m : String) (now : Nat)
    (hready : s.transportReady = true) (hsend : send f = some m)
    (hfatal : isFatalConnectionError m = false) :
    handleRequestMessage send s f rid now
      = ({ s with transportReady := false,
                  messageQueue := if truthy rid
                    then s.messageQueue ++ [f] else s.messageQueue }, []) := by
  unfold handleRequestMessage
  rw [hready, hsend]
  simp [hfatal]

/-- Witness for C5's amended theorem at a concrete ready state, with a
truthy tracked id. -/
theorem transient_send_failure_behavior_witness :
    handleRequestMessage sendBoom
        ({ transportReady := true, messageQueue := [listFrame] } : BridgeState)
        pingFrame (some (.num 5)) 0
      = ({ transportReady := false, messageQueue := [listFrame, pingFrame] },
         []) :=
  transient_send_failure_behavior sendBoom
    { transportReady := true, messageQueue := [listFrame] } pingFrame
    (some (.num 5)) "boom" 0 rfl rfl (by decide)

/-! ## C6: three consecutive timeouts -/

/-- A timeout cancellation below the threshold only increments the
consecutive-timeout counter; no reconnection timer is created. -/
theorem stdin_timeout_below (s : BridgeState) (k : Int) (now : Nat)
    (h : s.consecutiveTimeouts < 2) :
    (handleStdinMessage sendOk s (timeoutCancel k) now).1.consecutiveTimeouts
        = s.consecutiveTimeouts + 1 ∧
    (handleStdinMessage sendOk s (timeoutCancel k) now).1.reconnecting
        = s.reconnecting ∧
    ((handleStdinMessage sendOk s (timeoutCancel k) now).2.countP
        Event.isSchedule = 0) := by
  have hth : ¬ (3 ≤ s.consecutiveTimeouts + 1) := by omega
  have hinc : jsIncludes "Request timed out" "Request timed out" = true := by
    decide
  unfold handleStdinMessage
  simp only [timeoutCancel, Option.isSome_none, Bool.false_eq_true, if_false,
    beq_self_eq_true, hinc, if_true, decide_eq_false hth, Bool.false_and,
    handleRequestMessage_none_ok]
  refine ⟨by trivial, by trivial, ?_⟩
  split <;> rfl

/-- The third consecutive timeout cancellation (counter at 2, no
reconnection in flight) resets the counter and creates exactly one
reconnection timer. -/
theorem stdin_timeout_third (s : BridgeState) (k : Int) (now : Nat)
    (h2 : s.consecutiveTimeouts = 2) (hr : s.reconnecting = false) :
    (handleStdinMessage sendOk s (timeoutCancel k) now).1.consecutiveTimeouts
        = 0 ∧
    (handleStdinMessage sendOk s (timeoutCancel k) now).1.reconnecting
        = true ∧
    ((handleStdinMessage sendOk s (timeoutCancel k) now).2.countP
        Event.isSchedule = 1) := by
  have hth : 3 ≤ s.consecutiveTimeouts + 1 := by omega
  have hinc : jsIncludes "Request timed out" "Request timed out" = true := by
    decide
  have hfacts := startReconnection_schedule_facts
    { s with consecutiveTimeouts := s.consecutiveTimeouts + 1,
             transportReady := false, reconnecting := false } now rfl
  have hready := startReconnection_ready
    { s with consecutiveTimeouts := s.consecutiveTimeouts + 1,
             transportReady := false, reconnecting := false } now
  unfold handleStdinMessage
  simp only [timeoutCancel, Option.isSome_none, Bool.false_eq_true, if_false,
    beq_self_eq_true, hinc, if_true, decide_eq_true hth, hr, Bool.not_false,
    Bool.and_self, handleRequestMessage_none_ok]
  refine ⟨by trivial, hfacts.2.1, ?_⟩
  rw [hready]
  simp [hfacts.1]

/-- C6.  Starting with a clear counter and no reconnection in flight, three
consecutive "Request timed out" cancellations read from stdin create
exactly one reconnection timer in total and leave the counter at 0. -/
theorem three_timeouts_one_reconnect (s : BridgeState) (now : Nat)
    (k1 k2 k3 : Int)
    (h0 : s.consecutiveTimeouts = 0) (hr : s.reconnecting = false) :
    ((runStdin sendOk s [timeoutCancel k1, timeoutCancel k2, timeoutCancel k3]
        now).2.countP Event.isSchedule = 1) ∧
    (runStdin sendOk s [timeoutCancel k1, timeoutCancel k2, timeoutCancel k3]
        now).1.consecutiveTimeouts = 0 := by
  obtain ⟨e1c, e1r, e1n⟩ := stdin_timeout_below s k1 now (by omega)
  set s1 := (handleStdinMessage sendOk s (timeoutCancel k1) now).1 with hs1
  obtain ⟨e2c, e2r, e2n⟩ := stdin_timeout_below s1 k2 now (by omega)
  set s2 := (handleStdinMessage sendOk s1 (timeoutCancel k2) now).1 with hs2
  have hr2 : s2.reconnecting = false := by
    rw [e2r, e1r]
    exact hr
  obtain ⟨e3c, e3r, e3n⟩ := stdin_timeout_third s2 k3 now (by omega) hr2
  simp only [runStdin, List.foldl]
  constructor
  · simp only [List.nil_append, List.countP_append, ← hs1, ← hs2]
    rw [e1n, e2n, e3n]
  · exact e3c

/-- Witness for C6 at the default initial state. -/
theorem three_timeouts_one_reconnect_witness :
    ((runStdin sendOk {} [timeoutCancel 1, timeoutCancel 2, timeoutCancel 3]
        0).2.countP Event.isSchedule = 1) ∧
    (runStdin sendOk {} [timeoutCancel 1, timeoutCancel 2, timeoutCancel 3]
        0).1.consecutiveTimeouts = 0 :=
  three_timeouts_one_reconnect {} 0 1 2 3 rfl rfl

/-! ## C7: the error-code classifier -/

/-- C7 counterexample.  "Not connected" is a ConnectionLost trigger for the
reconnection logic but not for the code classifier: it maps to
InternalError (-32603), not ConnectionClosed (-32000). -/
theorem not_connected_maps_to_internal_error :
    getErrorCodeForMessage "Not connected" = ErrorCode.InternalError ∧
    ¬ getErrorCodeForMessage "Not connected" = ErrorCode.ConnectionClosed := by
  decide

/-- C7 amended.  The classifier maps messages by the first matching family,
in order SessionLost, Timeout, ConnectionLost ("connection",
"Connection lost", "fetch failed", "ECONNREFUSED" — not "Not connected",
which falls through to InternalError), Parse, InvalidRequest, and
InternalError otherwise. -/
theorem getErrorCodeForMessage_characterization (m : String) :
    (specSessionLostTrigger m = true →
      getErrorCodeForMessage m = ErrorCode.MethodNotFound) ∧
    (specSessionLostTrigger m = false → specTimeoutTrigger m = true →
      getErrorCodeForMessage m = ErrorCode.RequestTimeout) ∧
    (specSessionLostTrigger m = false → specTimeoutTrigger m = false →
      specConnectionTrigger m = true →
      getErrorCodeForMessage m = ErrorCode.ConnectionClosed) ∧
    (specSessionLostTrigger m = false → specTimeoutTrigger m = false →
      specConnectionTrigger m = false → specParseTrigger m = true →
      getErrorCodeForMessage m = ErrorCode.ParseError) ∧
    (specSessionLostTrigger m = false → specTimeoutTrigger m = false →
      specConnectionTrigger m = false → specParseTrigger m = false →
      specInvalidReqTrigger m = true →
      getErrorCodeForMessage m = ErrorCode.InvalidRequest) ∧
    (specSessionLostTrigger m = false → specTimeoutTrigger m = false →
      specConnectionTrigger m = false → specParseTrigger m = false →
      specInvalidReqTrigger m = false →
      getErrorCodeForMessage m = ErrorCode.InternalError) ∧
    getErrorCodeForMessage "Not connected" = ErrorCode.InternalError := by
  refine ⟨?_, ?_, ?_, ?_, ?_, ?_, by decide⟩
  · intro h1
    unfold specSessionLostTrigger at h1
    simp [getErrorCodeForMessage, h1]
  · intro h1 h2
    unfold specSessionLostTrigger at h1
    unfold specTimeoutTrigger at h2
    simp [getErrorCodeForMessage, h1, h2]
  · intro h1 h2 h3
    unfold specSessionLostTrigger at h1
    unfold specTimeoutTrigger at h2
    unfold specConnectionTrigger at h3
    simp [getErrorCodeForMessage, h1, h2, h3]
  · intro h1 h2 h3 h4
    unfold specSessionLostTrigger at h1
    unfold specTimeoutTrigger at h2
    unfold specConnectionTrigger at h3
    unfold specParseTrigger at h4
    simp [getErrorCodeForMessage, h1, h2, h3, h4]
  · intro h1 h2 h3 h4 h5
    unfold specSessionLostTrigger at h1
    unfold specTimeoutTrigger at h2
    unfold specConnectionTrigger at h3
    unfold specParseTrigger at h4
    unfold specInvalidReqTrigger at h5
    simp [getErrorCodeForMessage, h1, h2, h3, h4, h5]
  · intro h1 h2 h3 h4 h5
    unfold specSessionLostTrigger at h1
    unfold specTimeoutTrigger at h2
    unfold specConnectionTrigger at h3
    unfold specParseTrigger at h4
    unfold specInvalidReqTrigger at h5
    simp [getErrorCodeForMessage, h1, h2, h3, h4, h5]

/-- Witness for C7's amended theorem on the ConnectionLost family. -/
theorem getErrorCodeForMessage_characterization_witness :
    getErrorCodeForMessage "fetch failed" = ErrorCode.ConnectionClosed :=
  (getErrorCodeForMessage_characterization "fetch failed").2.2.1
    (by decide) (by decide) (by decide)

/-! ## C8: error frame ids -/

/-- C8.  Every error frame the bridge emits carries the tracked request id
when one is available; when the id is undefined or null it carries the
synthesized string id `"error-<unixMs>"`; the emitted id is never null. -/
theorem writeErrorMessage_id_spec (message : ErrInput) (code : Option Int)
    (id : Option JsonId) (now : Nat) :
    (∃ rid, (writeErrorMessage message code id now).id = some rid ∧
      rid ≠ JsonId.null) ∧
    (∀ v, id = some v → v ≠ JsonId.null →
      (writeErrorMessage message code id now).id = some v) ∧
    ((id = none ∨ id = some JsonId.null) →
      (writeErrorMessage message code id now).id
        = some (.str ("error-" ++ toString now))) := by
  rcases id with _ | v
  · refine ⟨⟨.str ("error-" ++ toString now), rfl, by simp⟩, ?_, fun _ => rfl⟩
    intro v hv
    simp at hv
  · rcases v with n | t | _
    · refine ⟨⟨.num n, rfl, by simp⟩, ?_, ?_⟩
      · intro v hv _
        cases hv
        rfl
      · intro hd
        rcases hd with hd | hd <;> simp at hd
    · refine ⟨⟨.str t, rfl, by simp⟩, ?_, ?_⟩
      · intro v hv _
        cases hv
        rfl
      · intro hd
        rcases hd with hd | hd <;> simp at hd
    · refine ⟨⟨.str ("error-" ++ toString now), rfl, by simp⟩, ?_, fun _ => rfl⟩
      intro v hv hnn
      cases hv
      exact absurd rfl hnn

/-- Witness for C8 at a concrete tracked id. -/
theorem writeErrorMessage_id_spec_witness :
    (writeErrorMessage (.str "boom") none (some (.num 7)) 1234).id
      = some (.num 7) :=
  (writeErrorMessage_id_spec (.str "boom") none (some (.num 7)) 1234).2.1
    (.num 7) rfl (by decide)

/-! ## C9: backoff schedule and single timer -/

/-- C9.  When no reconnection is in flight, `startReconnection` creates one
timer whose delay is `min(1000 * 1.5^(k-1), 10000)` ms for the attempt
number `k` it just advanced to, and marks a reconnection in flight; while
one is in flight, `startReconnection` is a no-op, so no second timer is
ever created. -/
theorem backoff_delay_spec (s : BridgeState) (now : Nat)
    (h : s.reconnecting = false) :
    (∃ k : Nat, 1 ≤ k ∧
      (startReconnection s now).1.reconnectAttempts = k ∧
      (startReconnection s now).1.reconnectTimer
        = some (min (reconnectDelay * (3 / 2 : ℚ) ^ (k - 1)) 10000) ∧
      (startReconnection s now).2
        = [Event.scheduleReconnect
            (min (reconnectDelay * (3 / 2 : ℚ) ^ (k - 1)) 10000)] ∧
      (startReconnection s now).1.reconnecting = true) ∧
    (∀ t : BridgeState, ∀ n : Nat, t.reconnecting = true →
      startReconnection t n = (t, [])) := by
  constructor
  · refine ⟨(if recoveryInterval < now - s.lastReconnectAttempt then 0
        else s.reconnectAttempts) + 1, by omega, ?_, ?_, ?_, ?_⟩ <;>
      (unfold startReconnection; rw [h]; simp)
  · intro t n ht
    unfold startReconnection
    rw [ht]
    simp

/-- Witness for C9 at the default initial state. -/
theorem backoff_delay_spec_witness :
    (∃ k : Nat, 1 ≤ k ∧
      (startReconnection {} 0).1.reconnectAttempts = k ∧
      (startReconnection {} 0).1.reconnectTimer
        = some (min (reconnectDelay * (3 / 2 : ℚ) ^ (k - 1)) 10000) ∧
      (startReconnection {} 0).2
        = [Event.scheduleReconnect
            (min (reconnectDelay * (3 / 2 : ℚ) ^ (k - 1)) 10000)] ∧
      (startReconnection {} 0).1.reconnecting = true) ∧
    (∀ t : BridgeState, ∀ n : Nat, t.reconnecting = true →
      startReconnection t n = (t, [])) :=
  backoff_delay_spec {} 0 rfl

/-! ## C10: successful responses reset the timeout counter -/

/-- C10.  Any server frame with an id and a result zeroes the
consecutive-timeout counter regardless of readiness, and any non-error
frame received while not READY marks the transport ready, drains the
queue (here under an always-successful sender), and zeroes the counter. -/
theorem success_resets_timeout_counter :
    (∀ (send : Sender) (s : BridgeState) (f : Frame) (now : Nat),
      f.id.isSome = true → f.hasResult = true →
      (handleResponseMessage send s f now).1.consecutiveTimeouts = 0) ∧
    (∀ (s : BridgeState) (f : Frame) (now : Nat),
      errIsAbsentOrEmpty f = true → s.transportReady = false →
      (handleResponseMessage sendOk s f now).1.transportReady = true ∧
      (handleResponseMessage sendOk s f now).1.messageQueue = [] ∧
      (handleResponseMessage sendOk s f now).1.consecutiveTimeouts = 0) := by
  constructor
  · intro send s f now hid hres
    have hcond : (f.id.isSome && f.hasResult) = true := by
      rw [hid, hres]
      rfl
    unfold handleResponseMessage
    rw [hcond]
    simp
  · intro s f now hfe hnr
    have htrig : ∀ e, f.error = some e → sessionErrTrigger e = false := by
      intro e he
      have h3 : e.isEmpty = true := by
        have h0 : errIsAbsentOrEmpty f = true := hfe
        unfold errIsAbsentOrEmpty at h0
        rw [he] at h0
        exact h0
      unfold sessionErrTrigger
      cases hm : e.message with
      | none => rfl
      | some mm =>
        exfalso
        unfold ErrObj.isEmpty at h3
        rw [hm] at h3
        simp at h3
    have hrs : readyStep sendOk s f now
        = ({ s with
              transportReady := true,
              messageQueue := [],
              consecutiveTimeouts := 0 },
           s.messageQueue.map Event.sent) := by
      unfold readyStep
      rw [hnr, hfe]
      simp only [Bool.not_false, Bool.and_self]
      rw [if_pos trivial, processQueue_sendOk]
    unfold handleResponseMessage
    rw [hrs]
    dsimp only
    cases he : f.error with
    | none =>
      split
      · exact ⟨rfl, rfl, rfl⟩
      · split
        · exact ⟨rfl, rfl, rfl⟩
        · exact ⟨rfl, rfl, rfl⟩
    | some e =>
      have ht := htrig e he
      simp only [ht, Bool.false_eq_true, if_false]
      split
      · exact ⟨rfl, rfl, rfl⟩
      · split
        · exact ⟨rfl, rfl, rfl⟩
        · exact ⟨rfl, rfl, rfl⟩

/-- Witness for C10: a result response at counter 2 resets the counter. -/
theorem success_resets_timeout_counter_witness :
    (handleResponseMessage sendOk
        ({ consecutiveTimeouts := 2, transportReady := true } : BridgeState)
        { id := some (.num 1), hasResult := true } 0).1.consecutiveTimeouts
      = 0 :=
  success_resets_timeout_counter.1 sendOk
    { consecutiveTimeouts := 2, transportReady := true }
    { id := some (.num 1), hasResult := true } 0 rfl rfl

end MCPGate
